import Mathlib

/-!
Shallow embedding of a PL/0 toolchain (lexer, fused parser/code generator,
and register virtual machine) written in C, together with theorems settling
a list of claims about it.

The embedding mirrors the C sources statement by statement:

* `src/lexer-master/lexical_analyzer.c` → the `DFA_Alpha`, `DFA_Digit`,
  `DFA_Special` and `lexicalAnalyzer` functions below;
* `src/code_generator-master/code_generator.c` → the `CGM` monad and the
  recursive-descent functions `program`, `block`, `const_declaration`,
  `var_declaration`, `proc_declaration`, `statement`, `condition`,
  `expression`, `term`, `factor`;
* `src/assignment1_pm0-master/vm.c` → `getBasePointer`,
  `executeInstruction` and `simulateVM`.

C behaviour that has no defined result (reading past the nul terminator,
dereferencing a NULL `Symbol*`, signed division by zero, fetching outside
the loaded code) is modelled by a distinguished "undefined" result, never by
an arbitrary total default.  Loops whose termination the C source does not
guarantee are driven by an explicit fuel parameter; exhausting the fuel is a
separate result from every defined outcome.  Reads of fields the C code
never initialises (for example `Symbol.address` for `VAR` and `PROC`
entries) are modelled by an explicit `garbage` parameter threaded through
the state, so theorems can quantify over the indeterminate value.

Headers of the repository (`token.h`, `data.h`, `symbol.h`, `symbol.c`) are
not part of the sources; the few constants and the one function
(`findSymbol`) taken from them are modelled from the specification and are
marked `Modelled from the spec:` in their doc comments.
-/

namespace PL0

/-! ## Token model

The token structure mirrors `token.h`'s `Token`: a numeric id plus the
lexeme.  The id values `identsym = 2` and `numbersym = 3` appear literally
in `lexical_analyzer.c`; the remaining ids come from the shared enumeration
of the missing `token.h` (the lexer's own doc comment fixes `"const" ↦ 28`,
anchoring the standard PL/0 numbering used here).
-/

/-- Modelled from the spec: id of the end-of-tokens sentinel from the
missing `token.h` (`getCurrentToken` "returns token with id nulsym" at the
end of the list). -/
def nulsym : Nat := 1

/-- Identifier token id; the literal `2` is assigned in `DFA_Alpha`. -/
def identsym : Nat := 2

/-- Number token id; the literal `3` is assigned in `DFA_Digit`. -/
def numbersym : Nat := 3

/-- Modelled from the spec: punctuator and keyword ids of the missing
`token.h`, standard PL/0 numbering (`"const" ↦ 28` per the source comment). -/
def plussym : Nat := 4

def minussym : Nat := 5

def multsym : Nat := 6

def slashsym : Nat := 7

def oddsym : Nat := 8

def eqsym : Nat := 9

def neqsym : Nat := 10

def lessym : Nat := 11

def leqsym : Nat := 12

def gtrsym : Nat := 13

def geqsym : Nat := 14

def lparentsym : Nat := 15

def rparentsym : Nat := 16

def commasym : Nat := 17

def semicolonsym : Nat := 18

def periodsym : Nat := 19

def becomessym : Nat := 20

def beginsym : Nat := 21

def endsym : Nat := 22

def ifsym : Nat := 23

def thensym : Nat := 24

def whilesym : Nat := 25

def dosym : Nat := 26

def callsym : Nat := 27

def constsym : Nat := 28

def varsym : Nat := 29

def procsym : Nat := 30

def writesym : Nat := 31

def readsym : Nat := 32

def elsesym : Nat := 33

/-- A token: numeric id and lexeme, as in `token.h`'s `Token` struct. -/
structure Token where
  id : Nat
  lexeme : List Char
deriving DecidableEq, Repr

/-! ## Lexer (`lexical_analyzer.c`) -/

/-- The lexical error enumeration used by `lexical_analyzer.c` (declared in
the missing `data.h`; the member names are exactly the ones the source
uses). -/
inductive LexErr where
  | NONE
  | NAME_TOO_LONG
  | NUM_TOO_LONG
  | NONLETTER_VAR_INITIAL
  | INV_SYM
  | NO_SOURCE_CODE
deriving DecidableEq, Repr

/-- Modelled from the spec: `MAX_LEXEME_LENGTH` of the missing `data.h`.
The spec bounds lexemes at 11 characters, matching the literal `11` the
source compares against after its scanning loops. -/
def MAX_LEXEME_LENGTH : Nat := 11

/-- Mirror of `LexerState` (line number, character index, error, token
list); the source-code pointer is passed separately as a `List Char`. -/
structure LexerState where
  lineNum : Int
  charInd : Nat
  sourceCode : List Char
  lexerError : LexErr
  tokenList : List Token
deriving DecidableEq, Repr

/-- Mirror of `LexerOut`. -/
structure LexerOut where
  lexerError : LexErr
  errorLine : Int
  tokenList : List Token
deriving DecidableEq, Repr

/-- Result of running a piece of the lexer.  `.oob` is a read past the nul
terminator of the source string (undefined behaviour in the C source);
`.fuelOut` means the fuel ran out before the C control flow returned. -/
inductive LexStep (α : Type) where
  | ok : α → LexStep α
  | oob : LexStep α
  | fuelOut : LexStep α
deriving DecidableEq, Repr

/-- The nul character terminating a C string. -/
def nulChar : Char := Char.ofNat 0

/-- Reading `sourceCode[i]`: the characters of the list, then the nul
terminator at index `length`, and undefined behaviour beyond it. -/
def readChar (src : List Char) (i : Nat) : LexStep Char :=
  if h : i < src.length then .ok (src.get ⟨i, h⟩)
  else if i = src.length then .ok nulChar
  else .oob

/-- C `isalpha` on the ASCII letters (`ctype.h`). -/
def isalpha (c : Char) : Bool := c.isAlpha

/-- C `isdigit` (`ctype.h`). -/
def isdigit (c : Char) : Bool := c.isDigit

/-- Mirror of `isSpecialSymbol`. -/
def isSpecialSymbol (c : Char) : Bool :=
  c = '+' || c = '-' || c = '*' || c = '/' ||
  c = '(' || c = ')' || c = '=' || c = ',' ||
  c = '.' || c = '<' || c = '>' || c = ';' ||
  c = ':'

/-- Mirror of the `SymbolType` enumeration. -/
inductive SymbolType where
  | ALPHA
  | DIGIT
  | SPECIAL
  | INVALID
deriving DecidableEq, Repr

/-- Mirror of `getSymbolType`. -/
def getSymbolType (c : Char) : SymbolType :=
  if isalpha c then .ALPHA
  else if isdigit c then .DIGIT
  else if isSpecialSymbol c then .SPECIAL
  else .INVALID

/-- Modelled from the spec: the reserved-word table `tokens[]` of the
missing `token.h`, restricted to the closed keyword set of the spec
(`checkReservedTokens` scans it from `firstReservedToken` to
`lastReservedToken`). -/
def reservedTokens : List (Nat × List Char) :=
  [ (oddsym, ['o', 'd', 'd'])
  , (beginsym, ['b', 'e', 'g', 'i', 'n'])
  , (endsym, ['e', 'n', 'd'])
  , (ifsym, ['i', 'f'])
  , (thensym, ['t', 'h', 'e', 'n'])
  , (whilesym, ['w', 'h', 'i', 'l', 'e'])
  , (dosym, ['d', 'o'])
  , (callsym, ['c', 'a', 'l', 'l'])
  , (constsym, ['c', 'o', 'n', 's', 't'])
  , (varsym, ['v', 'a', 'r'])
  , (procsym, ['p', 'r', 'o', 'c', 'e', 'd', 'u', 'r', 'e'])
  , (writesym, ['w', 'r', 'i', 't', 'e'])
  , (readsym, ['r', 'e', 'a', 'd'])
  , (elsesym, ['e', 'l', 's', 'e']) ]

/-- Mirror of `checkReservedTokens`: the id of the reserved word equal to
the symbol, `none` standing for the C return value `-1`. -/
def checkReservedTokens (symbol : List Char) : Option Nat :=
  (reservedTokens.find? (fun p => p.2 = symbol)).map Prod.fst

/-- The scanning loop of `DFA_Alpha`: consume alphanumeric characters,
keeping the C loop's counter `i` (`i - 1` is the number of characters
stored so far).  Returns the new character index, the stored lexeme, and
the error set inside the loop, if any. -/
def alphaScan (src : List Char) :
    Nat → Nat → Nat → List Char → LexStep (Nat × List Char × Option LexErr)
  | 0, _, _, _ => .fuelOut
  | fuel + 1, i, charInd, lexeme =>
    match readChar src charInd with
    | .oob => .oob
    | .fuelOut => .fuelOut
    | .ok c =>
      if isalpha c || isdigit c then
        let charInd := charInd + 1
        if i - 1 > MAX_LEXEME_LENGTH then
          .ok (charInd, lexeme, some .NAME_TOO_LONG)
        else
          alphaScan src fuel (i + 1) charInd (lexeme ++ [c])
      else
        .ok (charInd, lexeme, none)

/-- Mirror of `DFA_Alpha`. -/
def DFA_Alpha (fuel : Nat) (st : LexerState) : LexStep LexerState :=
  match alphaScan st.sourceCode fuel 1 st.charInd [] with
  | .oob => .oob
  | .fuelOut => .fuelOut
  | .ok (charInd', _, some e) =>
    .ok { st with charInd := charInd', lexerError := e }
  | .ok (charInd', lexeme, none) =>
    if lexeme.length > 11 then
      .ok { st with charInd := charInd', lexerError := .NAME_TOO_LONG }
    else
      match checkReservedTokens lexeme with
      | some reservedToken =>
        .ok { st with charInd := charInd',
                      tokenList := st.tokenList ++ [⟨reservedToken, lexeme⟩] }
      | none =>
        .ok { st with charInd := charInd',
                      tokenList := st.tokenList ++ [⟨2, lexeme⟩] }

/-- The scanning loop of `DFA_Digit`, with the `yesAlpha` flag.  Note the C
order: the length check precedes the store, and the `yesAlpha` check comes
after the store, inside the loop. -/
def digitScan (src : List Char) :
    Nat → Nat → Nat → Bool → List Char → LexStep (Nat × List Char × Option LexErr)
  | 0, _, _, _, _ => .fuelOut
  | fuel + 1, i, charInd, yesAlpha, lexeme =>
    match readChar src charInd with
    | .oob => .oob
    | .fuelOut => .fuelOut
    | .ok c =>
      if isalpha c || isdigit c then
        let charInd := charInd + 1
        let yesAlpha := yesAlpha || isalpha c
        if i - 1 > MAX_LEXEME_LENGTH then
          .ok (charInd, lexeme, some .NUM_TOO_LONG)
        else
          let lexeme := lexeme ++ [c]
          if yesAlpha then
            .ok (charInd, lexeme, some .NONLETTER_VAR_INITIAL)
          else
            digitScan src fuel (i + 1) charInd yesAlpha lexeme
      else
        .ok (charInd, lexeme, none)

/-- Mirror of `DFA_Digit`. -/
def DFA_Digit (fuel : Nat) (st : LexerState) : LexStep LexerState :=
  match digitScan st.sourceCode fuel 1 st.charInd false [] with
  | .oob => .oob
  | .fuelOut => .fuelOut
  | .ok (charInd', _, some e) =>
    .ok { st with charInd := charInd', lexerError := e }
  | .ok (charInd', lexeme, none) =>
    if lexeme.length > 5 then
      .ok { st with charInd := charInd', lexerError := .NUM_TOO_LONG }
    else
      .ok { st with charInd := charInd',
                    tokenList := st.tokenList ++ [⟨3, lexeme⟩] }

/-- The `while (exit == 0)` comment loop of `DFA_Special`, entered with
`charInd` on the `*` of the opening `/*`.  Each iteration first increments
`charInd` and then reads; the loop has no terminator check, so an
unterminated comment walks past the end of the source (`.oob`).  On the
closing `*/` it returns the index just past the comment. -/
def commentScan (src : List Char) : Nat → Nat → LexStep Nat
  | 0, _ => .fuelOut
  | fuel + 1, charInd =>
    let charInd := charInd + 1
    match readChar src charInd with
    | .oob => .oob
    | .fuelOut => .fuelOut
    | .ok c =>
      if c = '*' then
        match readChar src (charInd + 1) with
        | .oob => .oob
        | .fuelOut => .fuelOut
        | .ok c2 =>
          if c2 = '/' then .ok (charInd + 2)
          else commentScan src fuel charInd
      else
        commentScan src fuel charInd

/-- Append a token and perform the shared `charInd++` at the end of
`DFA_Special`; `width` is the number of extra characters the branch itself
consumed (one for the two-character symbols). -/
def specialToken (st : LexerState) (width : Nat) (id : Nat) (lexeme : List Char) :
    LexerState :=
  { st with tokenList := st.tokenList ++ [⟨id, lexeme⟩],
            charInd := st.charInd + width + 1 }

/-- Mirror of `DFA_Special`.  The branch for a lone `:` is commented out in
the source: no token is produced and no error is set, and the shared final
`charInd++` still runs.  The comment-closing branch returns early, skipping
that final increment. -/
def DFA_Special (fuel : Nat) (st : LexerState) : LexStep LexerState :=
  match readChar st.sourceCode st.charInd with
  | .oob => .oob
  | .fuelOut => .fuelOut
  | .ok c =>
    if c = '/' then
      match readChar st.sourceCode (st.charInd + 1) with
      | .oob => .oob
      | .fuelOut => .fuelOut
      | .ok c2 =>
        if c2 = '*' then
          match commentScan st.sourceCode fuel (st.charInd + 1) with
          | .oob => .oob
          | .fuelOut => .fuelOut
          | .ok charInd' => .ok { st with charInd := charInd' }
        else
          .ok (specialToken st 0 slashsym "/".toList)
    else if c = '<' then
      match readChar st.sourceCode (st.charInd + 1) with
      | .oob => .oob
      | .fuelOut => .fuelOut
      | .ok c2 =>
        if c2 = '=' then .ok (specialToken st 1 leqsym "<=".toList)
        else if c2 = '>' then .ok (specialToken st 1 neqsym "<>".toList)
        else .ok (specialToken st 0 lessym "<".toList)
    else if c = ':' then
      match readChar st.sourceCode (st.charInd + 1) with
      | .oob => .oob
      | .fuelOut => .fuelOut
      | .ok c2 =>
        if c2 = '=' then .ok (specialToken st 1 becomessym ":=".toList)
        else .ok { st with charInd := st.charInd + 1 }
    else if c = '>' then
      match readChar st.sourceCode (st.charInd + 1) with
      | .oob => .oob
      | .fuelOut => .fuelOut
      | .ok c2 =>
        if c2 = '=' then .ok (specialToken st 1 geqsym ">=".toList)
        else .ok (specialToken st 0 gtrsym ">".toList)
    else if c = '+' then .ok (specialToken st 0 plussym "+".toList)
    else if c = ')' then .ok (specialToken st 0 rparentsym ")".toList)
    else if c = '-' then .ok (specialToken st 0 minussym "-".toList)
    else if c = '=' then .ok (specialToken st 0 eqsym "=".toList)
    else if c = ',' then .ok (specialToken st 0 commasym ",".toList)
    else if c = '*' then .ok (specialToken st 0 multsym "*".toList)
    else if c = ';' then .ok (specialToken st 0 semicolonsym ";".toList)
    else if c = '(' then .ok (specialToken st 0 lparentsym "(".toList)
    else if c = '.' then .ok (specialToken st 0 periodsym ".".toList)
    else .ok { st with charInd := st.charInd + 1 }

/-- The whitespace-skipping inner loop of `lexicalAnalyzer`: advances over
spaces and newlines, counting lines.  Returns the new line number and
character index. -/
def skipWs (src : List Char) : Nat → Int → Nat → LexStep (Int × Nat)
  | 0, _, _ => .fuelOut
  | fuel + 1, lineNum, charInd =>
    match readChar src charInd with
    | .oob => .oob
    | .fuelOut => .fuelOut
    | .ok c =>
      if c = ' ' || c = '\n' then
        skipWs src fuel (if c = '\n' then lineNum + 1 else lineNum) (charInd + 1)
      else
        .ok (lineNum, charInd)

/-- The main `while` loop of `lexicalAnalyzer`: runs while the current
character is not the terminator and no error is set; skips whitespace,
breaks at the terminator, and dispatches on the symbol type. -/
def lexLoop : Nat → LexerState → LexStep LexerState
  | 0, _ => .fuelOut
  | fuel + 1, st =>
    match readChar st.sourceCode st.charInd with
    | .oob => .oob
    | .fuelOut => .fuelOut
    | .ok c0 =>
      if c0 = nulChar ∨ st.lexerError ≠ LexErr.NONE then .ok st
      else
        match skipWs st.sourceCode fuel st.lineNum st.charInd with
        | .oob => .oob
        | .fuelOut => .fuelOut
        | .ok (lineNum', charInd') =>
          let st := { st with lineNum := lineNum', charInd := charInd' }
          match readChar st.sourceCode st.charInd with
          | .oob => .oob
          | .fuelOut => .fuelOut
          | .ok c =>
            if c = nulChar then .ok st
            else
              match getSymbolType c with
              | .ALPHA =>
                match DFA_Alpha fuel st with
                | .oob => .oob
                | .fuelOut => .fuelOut
                | .ok st' => lexLoop fuel st'
              | .DIGIT =>
                match DFA_Digit fuel st with
                | .oob => .oob
                | .fuelOut => .fuelOut
                | .ok st' => lexLoop fuel st'
              | .SPECIAL =>
                match DFA_Special fuel st with
                | .oob => .oob
                | .fuelOut => .fuelOut
                | .ok st' => lexLoop fuel st'
              | .INVALID =>
                lexLoop fuel { st with lexerError := .INV_SYM }

/-- Mirror of `initLexerState`. -/
def initLexerState (sourceCode : List Char) : LexerState :=
  { lineNum := 0, charInd := 0, sourceCode := sourceCode,
    lexerError := .NONE, tokenList := [] }

/-- Mirror of `lexicalAnalyzer`.  `none` is the C `NULL` source pointer, on
which the function returns `NO_SOURCE_CODE` with error line `-1` before
touching the source (the C struct's token list is left unwritten and no
token is produced; it is rendered here as the empty list). -/
def lexicalAnalyzer (fuel : Nat) (sourceCode : Option (List Char)) :
    LexStep LexerOut :=
  match sourceCode with
  | none => .ok ⟨.NO_SOURCE_CODE, -1, []⟩
  | some src =>
    match lexLoop fuel (initLexerState src) with
    | .oob => .oob
    | .fuelOut => .fuelOut
    | .ok st =>
      if st.lexerError ≠ LexErr.NONE then
        .ok ⟨st.lexerError, st.lineNum, st.tokenList⟩
      else
        .ok ⟨.NONE, -1, st.tokenList⟩

/-! ## Symbol table

`symbol.h` / `symbol.c` are not part of the sources; the `Symbol` record
and `findSymbol` are modelled from the specification's data model (§3) and
symbol-table contract (§4.2).
-/

/-- The three symbol kinds (spec §3). -/
inductive SymKind where
  | CONST
  | VAR
  | PROC
deriving DecidableEq, Repr

/-- Modelled from the spec: the `Symbol` record of the missing `symbol.h`:
name, kind, declaration level, and the two payload fields the C struct
carries.  The code generator fills only the fields it mentions; the others
keep the indeterminate value of the C stack or heap allocation, represented
by the state's `garbage` parameter. -/
structure Symbol where
  name : List Char
  type : SymKind
  level : Nat
  value : Int
  address : Int
deriving DecidableEq, Repr

/-- Modelled from the spec: `findSymbol` of the missing `symbol.c`.  Spec
§3/§4.2: scan the table and return the most recently declared symbol of the
given name whose level is visible (≤ the current level); `none` is the C
`NULL`.  The C signature passes a scope pointer instead of the level; the
visibility rule is the spec's. -/
def findSymbol (table : List Symbol) (currentLevel : Nat) (name : List Char) :
    Option Symbol :=
  (table.filter (fun s => s.name = name && s.level ≤ currentLevel)).getLast?

/-! ## Instructions and opcodes

The opcode numbers are the `case` labels of `vm.c`'s `executeInstruction`;
the mnemonic constants below (used by emission in `code_generator.c` and
declared in the missing `data.h`) are bound to those numbers.
-/

/-- A VM instruction `(op, r, l, m)`. -/
structure Instruction where
  op : Int
  r : Int
  l : Int
  m : Int
deriving DecidableEq, Repr

def LIT : Int := 1

def RTN : Int := 2

def LOD : Int := 3

def STO : Int := 4

def CAL : Int := 5

def INC : Int := 6

def JMP : Int := 7

def JPC : Int := 8

def SIO_WRITE : Int := 9

def SIO_READ : Int := 10

def SIO_HALT : Int := 11

def NEG : Int := 12

def ADD : Int := 13

def SUB : Int := 14

def MUL : Int := 15

def DIV : Int := 16

def ODD : Int := 17

def MOD : Int := 18

def EQL : Int := 19

def NEQ : Int := 20

def LSS : Int := 21

def LEQ : Int := 22

def GTR : Int := 23

def GEQ : Int := 24

/-- Modelled from the spec: `MAX_CODE_LENGTH` of the missing `data.h`
(spec §6 recommends at least 500). -/
def MAX_CODE_LENGTH : Nat := 500

/-! ## Code generator (`code_generator.c`)

The C file threads its state through file-scope globals (`_token_list_it`,
`currentLevel`, `symbolTable`, `vmCode`, `nextCodeIndex`, `currentReg`);
they become the fields of `CGState`, and `nextCodeIndex` is
`vmCode.length`.  `currentScope` is a pointer to a stack-allocated
procedure symbol; it only feeds the spec-modelled `findSymbol`, whose
visibility rule is stated in terms of the current level.  The `garbage`
field is the indeterminate value the C code reads from struct fields it
never initialised.

Each parsing function of the C file returns an `int` error code and
mutates the globals; here each returns a `CGRes`: `ok` is the C `return 0`
with the updated state, `ret e` a nonzero `return e`, and the remaining
constructors are the abnormal ways a run can end (NULL dereference,
`exit(0)` in `emit`, fuel exhaustion).  An error from a callee is
propagated unchanged (`| r => r` mirrors `if (err) return err`).
-/

/-- The global state of the code generator. -/
structure CGState where
  toks : List Token
  tokIdx : Nat
  currentLevel : Nat
  symbolTable : List Symbol
  vmCode : List Instruction
  currentReg : Int
  garbage : Int
deriving DecidableEq, Repr

/-- Result of running a code-generator function: `ok` is a normal return
(the C functions return `0`) with the updated globals, `ret e` is an early
`return e` with a nonzero error code, `crash` is a NULL-pointer
dereference (undefined behaviour), `exited` is the `exit(0)` inside `emit`
when code memory is full, and `fuelOut` means the fuel ended before the C
control flow returned. -/
inductive CGRes where
  | ok : CGState → CGRes
  | ret : Int → CGState → CGRes
  | crash : CGRes
  | exited : CGRes
  | fuelOut : CGRes
deriving DecidableEq, Repr

/-- Mirror of `getCurrentToken`: the token at the iterator, or the
`nulsym` token at the end of the list. -/
def getCurrentTokenSt (st : CGState) : Token :=
  st.toks.getD st.tokIdx ⟨nulsym, []⟩

/-- Mirror of `getCurrentTokenType`. -/
def tokType (st : CGState) : Nat := (getCurrentTokenSt st).id

/-- The current token's lexeme. -/
def tokLexeme (st : CGState) : List Char := (getCurrentTokenSt st).lexeme

/-- Mirror of `nextToken`. -/
def nextTokenSt (st : CGState) : CGState := { st with tokIdx := st.tokIdx + 1 }

/-- `currentReg--`. -/
def decRegSt (st : CGState) : CGState := { st with currentReg := st.currentReg - 1 }

/-- `currentReg++`. -/
def incRegSt (st : CGState) : CGState := { st with currentReg := st.currentReg + 1 }

/-- `currentLevel++`. -/
def incLevelSt (st : CGState) : CGState :=
  { st with currentLevel := st.currentLevel + 1 }

/-- `currentLevel--`. -/
def decLevelSt (st : CGState) : CGState :=
  { st with currentLevel := st.currentLevel - 1 }

/-- Mirror of `emit`: append to `vmCode`, or `none` for the `exit(0)` path
when `MAX_CODE_LENGTH` is reached. -/
def emitSt (st : CGState) (op r l m : Int) : Option CGState :=
  if st.vmCode.length = MAX_CODE_LENGTH then none
  else some { st with vmCode := st.vmCode ++ [⟨op, r, l, m⟩] }

/-- The jump-fixup write `vmCode[ref].m = nextCodeIndex`. -/
def patchSt (st : CGState) (ref : Nat) : CGState :=
  let old := st.vmCode.getD ref ⟨0, 0, 0, 0⟩
  let patched : Instruction := { old with m := (st.vmCode.length : Int) }
  { st with vmCode := st.vmCode.set ref patched }

/-- Mirror of `addSymbol` of the missing `symbol.c`: append to the table
(spec §4.2: `add(sym)` appends). -/
def addSymSt (st : CGState) (s : Symbol) : CGState :=
  { st with symbolTable := st.symbolTable ++ [s] }

/-- The call `findSymbol(&symbolTable, currentScope, getCurrentToken().lexeme)`
appearing throughout `code_generator.c`. -/
def findSymSt (st : CGState) : Option Symbol :=
  findSymbol st.symbolTable st.currentLevel (tokLexeme st)

/-- Mirror of `findLevel`: recomputes `findSymbol` on the *current* token's
lexeme (ignoring its `foundSymbol` argument), dereferences the result
(`none` is the NULL-dereference crash), and returns the level difference,
clamped at zero by the source's guard.  (`currentLevel` is `unsigned int`
in C; on every reachable call the difference is non-negative, where all
signedness readings agree.) -/
def findLevelSt (st : CGState) : Option Int :=
  match findSymSt st with
  | none => none
  | some s =>
    let d : Int := (st.currentLevel : Int) - (s.level : Int)
    some (if d < 0 then 0 else d)

/-- Mirror of `atoi` on the digit-only lexemes the lexer produces: read a
run of leading digits. -/
def atoi : List Char → Int :=
  go 0
where
  go (acc : Int) : List Char → Int
    | [] => acc
    | c :: cs => if isdigit c then go (acc * 10 + (c.toNat - 48)) cs else acc

/-- The comma loop of `const_declaration`: each iteration heap-allocates a
symbol, sets its level and kind, parses `ident = number`, and appends it;
`value` is filled from the lexeme, `address` keeps the allocation's
indeterminate value. -/
def constLoop : Nat → CGState → CGRes
  | 0, _ => .fuelOut
  | fuel + 1, st =>
    if tokType st = commasym then
      let st := nextTokenSt st
      let lvl := st.currentLevel
      if tokType st = identsym then
        let name := tokLexeme st
        let st := nextTokenSt st
        if tokType st = eqsym then
          let st := nextTokenSt st
          if tokType st = numbersym then
            let v := atoi (tokLexeme st)
            let st := nextTokenSt st
            constLoop fuel (addSymSt st ⟨name, .CONST, lvl, v, st.garbage⟩)
          else .ret 1 st
        else .ret 2 st
      else .ret 3 st
    else .ok st

/-- Mirror of `const_declaration`. -/
def const_declaration (fuel : Nat) (st : CGState) : CGRes :=
  if tokType st = constsym then
    let st := nextTokenSt st
    let lvl := st.currentLevel
    if tokType st = identsym then
      let name := tokLexeme st
      let st := nextTokenSt st
      if tokType st = eqsym then
        let st := nextTokenSt st
        if tokType st = numbersym then
          let v := atoi (tokLexeme st)
          let st := nextTokenSt st
          match constLoop fuel (addSymSt st ⟨name, .CONST, lvl, v, st.garbage⟩) with
          | .ok st =>
            if tokType st = semicolonsym then .ok (nextTokenSt st)
            else .ret 4 st
          | r => r
        else .ret 1 st
      else .ret 2 st
    else .ret 3 st
  else .ok st

/-- The comma loop of `var_declaration`: per variable, `INC 0 0 2` is
emitted and the symbol appended with kind `VAR` and level set; neither
`value` nor `address` is ever written, so both keep the indeterminate
value. -/
def varLoop : Nat → CGState → CGRes
  | 0, _ => .fuelOut
  | fuel + 1, st =>
    if tokType st = commasym then
      let st := nextTokenSt st
      let lvl := st.currentLevel
      if tokType st = identsym then
        let name := tokLexeme st
        let st := nextTokenSt st
        match emitSt st INC 0 0 2 with
        | none => .exited
        | some st =>
          varLoop fuel (addSymSt st ⟨name, .VAR, lvl, st.garbage, st.garbage⟩)
      else .ret 3 st
    else .ok st

/-- Mirror of `var_declaration`. -/
def var_declaration (fuel : Nat) (st : CGState) : CGRes :=
  if tokType st = varsym then
    let st := nextTokenSt st
    let lvl := st.currentLevel
    if tokType st = identsym then
      let name := tokLexeme st
      let st := nextTokenSt st
      match emitSt st INC 0 0 2 with
      | none => .exited
      | some st =>
        match varLoop fuel (addSymSt st ⟨name, .VAR, lvl, st.garbage, st.garbage⟩) with
        | .ok st =>
          if tokType st = semicolonsym then .ok (nextTokenSt st)
          else .ret 4 st
        | r => r
    else .ret 3 st
  else .ok st

mutual

/-- Mirror of `block`. -/
def block : Nat → CGState → CGRes
  | 0, _ => .fuelOut
  | fuel + 1, st =>
    match const_declaration fuel st with
    | .ok st =>
      match var_declaration fuel st with
      | .ok st =>
        match proc_declaration fuel st with
        | .ok st => statement fuel st
        | r => r
      | r => r
    | r => r

/-- Mirror of `proc_declaration` (its body is one `while` over `procsym`).
The procedure symbol is appended with only name, kind and level set — its
`address` field is never written.  `currentScope` is pointed at the local
symbol; scope handling lives inside the spec-modelled `findSymbol`. -/
def proc_declaration : Nat → CGState → CGRes
  | 0, _ => .fuelOut
  | fuel + 1, st =>
    if tokType st = procsym then
      let st := nextTokenSt st
      let lvl := st.currentLevel
      if tokType st = identsym then
        let name := tokLexeme st
        let st := nextTokenSt st
        let st := addSymSt st ⟨name, .PROC, lvl, st.garbage, st.garbage⟩
        if tokType st = semicolonsym then
          let st := nextTokenSt st
          let st := incLevelSt st
          let jumpRef := st.vmCode.length
          match emitSt st JMP 0 0 0 with
          | none => .exited
          | some st =>
            match emitSt st INC 0 0 4 with
            | none => .exited
            | some st =>
              match block fuel st with
              | .ok st =>
                let st := patchSt (decLevelSt st) jumpRef
                if tokType st = semicolonsym then
                  proc_declaration fuel (nextTokenSt st)
                else .ret 5 st
              | r => r
        else .ret 5 st
      else .ret 3 st
    else .ok st

/-- Mirror of `statement`.  Notable transcription points, all from the
source: the assignment's `STO` calls `findSymbol` on the *current* token
(the one after the expression); the call branch emits
`CAL 0 <address> 4` and its error path returns `7` (the comment above it
says 17); `read` emits `SIO_READ` at `currentReg` and then decrements
after the `STO`; `write` emits no `LOD`. -/
def statement : Nat → CGState → CGRes
  | 0, _ => .fuelOut
  | fuel + 1, st =>
    let t := tokType st
    if t = identsym then
      match findSymSt st with
      | none => .crash
      | some s =>
        if s.type ≠ SymKind.VAR then .ret 16 st
        else
          let st := nextTokenSt st
          if tokType st = becomessym then
            let st := nextTokenSt st
            match expression fuel st with
            | .ok st =>
              match findSymSt st with
              | none => .crash
              | some s2 =>
                match findLevelSt st with
                | none => .crash
                | some lvl =>
                  match emitSt st STO st.currentReg lvl s2.address with
                  | none => .exited
                  | some st => .ok (decRegSt st)
            | r => r
          else .ret 7 st
    else if t = callsym then
      let st := nextTokenSt st
      if tokType st = identsym then
        match findSymSt st with
        | none => .crash
        | some s =>
          if s.type = SymKind.PROC then
            match emitSt st CAL 0 s.address 4 with
            | none => .exited
            | some st => .ok (nextTokenSt st)
          else .ret 7 st
      else .ret 8 st
    else if t = beginsym then
      let st := nextTokenSt st
      match statement fuel st with
      | .ok st =>
        match stmtSemiLoop fuel st with
        | .ok st =>
          if tokType st = endsym then .ok (nextTokenSt st)
          else .ret 10 st
        | r => r
      | r => r
    else if t = ifsym then
      let st := nextTokenSt st
      match condition fuel st with
      | .ok st =>
        if tokType st = thensym then
          let st := nextTokenSt st
          let jpcRef := st.vmCode.length
          match emitSt st JPC st.currentReg 0 0 with
          | none => .exited
          | some st =>
            match statement fuel st with
            | .ok st =>
              if tokType st = elsesym then
                let st := nextTokenSt st
                match statement fuel st with
                | .ok st => .ok (patchSt st jpcRef)
                | r => r
              else .ok (patchSt st jpcRef)
            | r => r
        else .ret 9 st
      | r => r
    else if t = whilesym then
      let st := nextTokenSt st
      match condition fuel st with
      | .ok st =>
        let jpcRef := st.vmCode.length
        match emitSt st JPC st.currentReg 0 0 with
        | none => .exited
        | some st =>
          if tokType st = dosym then
            let st := nextTokenSt st
            match statement fuel st with
            | .ok st => .ok (patchSt st jpcRef)
            | r => r
          else .ret 11 st
      | r => r
    else if t = readsym then
      let st := nextTokenSt st
      match emitSt st SIO_READ st.currentReg 0 2 with
      | none => .exited
      | some st =>
        if tokType st = identsym then
          match findSymSt st with
          | none => .crash
          | some s =>
            match findLevelSt st with
            | none => .crash
            | some lvl =>
              match emitSt st STO st.currentReg lvl s.address with
              | none => .exited
              | some st => .ok (nextTokenSt (decRegSt st))
        else .ret 3 st
    else if t = writesym then
      let st := nextTokenSt st
      if tokType st = identsym then
        match emitSt st SIO_WRITE st.currentReg 0 1 with
        | none => .exited
        | some st => .ok (nextTokenSt st)
      else .ret 3 st
    else .ok st

/-- The `while (semicolonsym)` loop inside the `begin` branch of
`statement`. -/
def stmtSemiLoop : Nat → CGState → CGRes
  | 0, _ => .fuelOut
  | fuel + 1, st =>
    if tokType st = semicolonsym then
      let st := nextTokenSt st
      match statement fuel st with
      | .ok st => stmtSemiLoop fuel st
      | r => r
    else .ok st

/-- Mirror of `condition`.  For a relational condition the source emits
the comparison opcode immediately after the left expression — before
parsing the right expression — then decrements `currentReg`, consumes the
operator token, and only then parses the right-hand side. -/
def condition : Nat → CGState → CGRes
  | 0, _ => .fuelOut
  | fuel + 1, st =>
    if tokType st = oddsym then
      let st := nextTokenSt st
      match expression fuel st with
      | .ok st =>
        match emitSt st ODD (st.currentReg - 1) (st.currentReg - 1) st.currentReg with
        | none => .exited
        | some st => .ok (decRegSt st)
      | r => r
    else
      match expression fuel st with
      | .ok st =>
        let t := tokType st
        let relop : Option Int :=
          if t = eqsym then some EQL
          else if t = neqsym then some NEQ
          else if t = lessym then some LSS
          else if t = leqsym then some LEQ
          else if t = gtrsym then some GTR
          else if t = geqsym then some GEQ
          else none
        match relop with
        | none => .ret 12 st
        | some op =>
          match emitSt st op (st.currentReg - 1) (st.currentReg - 1) st.currentReg with
          | none => .exited
          | some st => expression fuel (nextTokenSt (decRegSt st))
      | r => r

/-- Mirror of `expression`.  A leading `-` compiles the first term and
then emits `NEG` *and decrements* `currentReg`; a leading `+` only
consumes the sign; the trailing loop is `exprLoop`. -/
def expression : Nat → CGState → CGRes
  | 0, _ => .fuelOut
  | fuel + 1, st =>
    let t := tokType st
    if t = plussym ∨ t = minussym then
      let minus := t = minussym
      let st := nextTokenSt st
      match term fuel st with
      | .ok st =>
        if minus then
          match emitSt st NEG (st.currentReg - 1) (st.currentReg - 1) st.currentReg with
          | none => .exited
          | some st => exprLoop fuel (decRegSt st)
        else exprLoop fuel st
      | r => r
    else
      match term fuel st with
      | .ok st => exprLoop fuel st
      | r => r

/-- The `while (plussym || minussym)` loop of `expression`. -/
def exprLoop : Nat → CGState → CGRes
  | 0, _ => .fuelOut
  | fuel + 1, st =>
    let t := tokType st
    if t = plussym ∨ t = minussym then
      let minus := t = minussym
      let st := nextTokenSt st
      match term fuel st with
      | .ok st =>
        let opc := if minus then SUB else ADD
        match emitSt st opc (st.currentReg - 1) (st.currentReg - 1) st.currentReg with
        | none => .exited
        | some st => exprLoop fuel (decRegSt st)
      | r => r
    else .ok st

/-- Mirror of `term`. -/
def term : Nat → CGState → CGRes
  | 0, _ => .fuelOut
  | fuel + 1, st =>
    match factor fuel st with
    | .ok st => termLoop fuel st
    | r => r

/-- The `while (multsym || slashsym)` loop of `term`. -/
def termLoop : Nat → CGState → CGRes
  | 0, _ => .fuelOut
  | fuel + 1, st =>
    let t := tokType st
    if t = multsym ∨ t = slashsym then
      let divide := t = slashsym
      let st := nextTokenSt st
      match factor fuel st with
      | .ok st =>
        let opc := if divide then DIV else MUL
        match emitSt st opc (st.currentReg - 1) (st.currentReg - 1) st.currentReg with
        | none => .exited
        | some st => termLoop fuel (decRegSt st)
      | r => r
    else .ok st

/-- Mirror of `factor`. -/
def factor : Nat → CGState → CGRes
  | 0, _ => .fuelOut
  | fuel + 1, st =>
    let t := tokType st
    if t = identsym then
      match findSymSt st with
      | none => .crash
      | some s =>
        match findLevelSt st with
        | none => .crash
        | some lvl =>
          match emitSt st LOD st.currentReg lvl s.address with
          | none => .exited
          | some st => .ok (nextTokenSt (incRegSt st))
    else if t = numbersym then
      match emitSt st LIT st.currentReg 0 (atoi (tokLexeme st)) with
      | none => .exited
      | some st => .ok (nextTokenSt (incRegSt st))
    else if t = lparentsym then
      let st := nextTokenSt st
      match expression fuel st with
      | .ok st =>
        if tokType st = rparentsym then .ok (nextTokenSt st)
        else .ret 13 st
      | r => r
    else .ret 14 st

end

/-- Mirror of `program`. -/
def program (fuel : Nat) (st : CGState) : CGRes :=
  match block fuel st with
  | .ok st =>
    if tokType st = periodsym then
      match emitSt (nextTokenSt st) SIO_HALT 0 0 3 with
      | none => .exited
      | some st => .ok st
    else .ret 6 st
  | r => r

/-- The state `codeGenerator` sets up before calling `program`. -/
def initCGState (g : Int) (toks : List Token) : CGState :=
  { toks := toks, tokIdx := 0, currentLevel := 0, symbolTable := [],
    vmCode := [], currentReg := 0, garbage := g }

/-- Mirror of `codeGenerator`, with `g` the indeterminate value of
never-initialised symbol fields. -/
def codeGenerator (g : Int) (fuel : Nat) (toks : List Token) : CGRes :=
  program fuel (initCGState g toks)

/-- The `int` a run of `codeGenerator` returns (`0` on success), together
with the final global state; `none` when the run crashed, exited or ran
out of fuel. -/
def cgOutcome : CGRes → Option (Int × CGState)
  | .ok st => some (0, st)
  | .ret e st => some (e, st)
  | _ => none

/-- The returned error code alone. -/
def cgErrCode (r : CGRes) : Option Int := (cgOutcome r).map Prod.fst

/-- The final state alone. -/
def cgFinalState (r : CGRes) : Option CGState := (cgOutcome r).map Prod.snd
/-! ## Virtual machine (`vm.c`)

The register file and the stack are modelled as total maps from indices to
integers (the C arrays hold zero-initialised `int`s; index bounds are not
the subject of any claim about `executeInstruction` itself).  The I/O
streams become lists of integers.  C behaviour with no defined result —
signed division or modulus by zero — is the `none` result of
`executeInstruction`; a fetch outside the loaded instructions (which in C
reads indeterminate memory, with no bounds check in `simulateVM`) is the
`undef` result of `simulateVM`.
-/

/-- The VM state of `vm.h`: 16 general registers, the stack, and the three
pointers, plus the two I/O channels.  (`IR` is set once in `initVM` and
never read; it is omitted.) -/
structure VMState where
  RF : Int → Int
  stack : Int → Int
  BP : Int
  SP : Int
  PC : Int
  input : List Int
  output : List Int

/-- Pointwise update of a register or stack map. -/
def upd (f : Int → Int) (i v : Int) : Int → Int :=
  fun j => if j = i then v else f j

/-- Mirror of `initVM`: registers and stack all zero, `BP = 1`, `SP = 0`,
`PC = 0`. -/
def initVM (input : List Int) : VMState :=
  { RF := fun _ => 0, stack := fun _ => 0, BP := 1, SP := 0, PC := 0,
    input := input, output := [] }

/-- Mirror of `getBasePointer`: follow the static link `L` times (the
C `while (L > 0)` loop, so a non-positive `L` returns the base unchanged). -/
def getBasePointer (stack : Int → Int) (currentBP : Int) (L : Int) : Int :=
  go currentBP L.toNat
where
  go : Int → Nat → Int
    | b, 0 => b
    | b, k + 1 => go (stack (b + 1)) k

/-- What `executeInstruction` reports back to the fetch loop: continue, the
`SIO_HALT` return, or the `default:` branch, which prints the fault record
`"Illegal instruction?"` and halts. -/
inductive StepOut where
  | cont
  | halt
  | fault
deriving DecidableEq, Repr

/-- Mirror of `executeInstruction`, dispatching on the `case` labels
`1`–`24`.  `none` is C undefined behaviour: the source divides
(`case 16`) and takes the modulus (`case 18`) with no test of the divisor.
An empty input list on `case 10` leaves the register unchanged, as a
failed `fscanf` leaves its target. -/
def executeInstruction (vm : VMState) (ins : Instruction) :
    Option (VMState × StepOut) :=
  if ins.op = 1 then
    some ({ vm with RF := upd vm.RF ins.r ins.m }, .cont)
  else if ins.op = 2 then
    let SP := vm.BP - 1
    let BP := vm.stack (SP + 3)
    let PC := vm.stack (SP + 4)
    some ({ vm with SP := SP, BP := BP, PC := PC }, .cont)
  else if ins.op = 3 then
    some ({ vm with
      RF := upd vm.RF ins.r (vm.stack (getBasePointer vm.stack vm.BP ins.l + ins.m)) },
      .cont)
  else if ins.op = 4 then
    some ({ vm with
      stack := upd vm.stack (getBasePointer vm.stack vm.BP ins.l + ins.m) (vm.RF ins.r) },
      .cont)
  else if ins.op = 5 then
    let stack := upd vm.stack (vm.SP + 1) 0
    let stack := upd stack (vm.SP + 2) (getBasePointer stack vm.BP ins.l)
    let stack := upd stack (vm.SP + 3) vm.BP
    let stack := upd stack (vm.SP + 4) vm.PC
    some ({ vm with stack := stack, BP := vm.SP + 1, PC := ins.m }, .cont)
  else if ins.op = 6 then
    some ({ vm with SP := vm.SP + ins.m }, .cont)
  else if ins.op = 7 then
    some ({ vm with PC := ins.m }, .cont)
  else if ins.op = 8 then
    some (if vm.RF ins.r = 0 then { vm with PC := ins.m } else vm, .cont)
  else if ins.op = 9 then
    some ({ vm with output := vm.output ++ [vm.RF ins.r] }, .cont)
  else if ins.op = 10 then
    match vm.input with
    | [] => some (vm, .cont)
    | x :: rest => some ({ vm with RF := upd vm.RF ins.r x, input := rest }, .cont)
  else if ins.op = 11 then
    some (vm, .halt)
  else if ins.op = 12 then
    some ({ vm with RF := upd vm.RF ins.r (0 - vm.RF ins.l) }, .cont)
  else if ins.op = 13 then
    some ({ vm with RF := upd vm.RF ins.r (vm.RF ins.l + vm.RF ins.m) }, .cont)
  else if ins.op = 14 then
    some ({ vm with RF := upd vm.RF ins.r (vm.RF ins.l - vm.RF ins.m) }, .cont)
  else if ins.op = 15 then
    some ({ vm with RF := upd vm.RF ins.r (vm.RF ins.l * vm.RF ins.m) }, .cont)
  else if ins.op = 16 then
    if vm.RF ins.m = 0 then none
    else some ({ vm with RF := upd vm.RF ins.r (Int.tdiv (vm.RF ins.l) (vm.RF ins.m)) },
      .cont)
  else if ins.op = 17 then
    some ({ vm with RF := upd vm.RF ins.r (Int.tmod (vm.RF ins.r) 2) }, .cont)
  else if ins.op = 18 then
    if vm.RF ins.m = 0 then none
    else some ({ vm with RF := upd vm.RF ins.r (Int.tmod (vm.RF ins.l) (vm.RF ins.m)) },
      .cont)
  else if ins.op = 19 then
    some ({ vm with RF := upd vm.RF ins.r (if vm.RF ins.l = vm.RF ins.m then 1 else 0) },
      .cont)
  else if ins.op = 20 then
    some ({ vm with RF := upd vm.RF ins.r (if vm.RF ins.l ≠ vm.RF ins.m then 1 else 0) },
      .cont)
  else if ins.op = 21 then
    some ({ vm with RF := upd vm.RF ins.r (if vm.RF ins.l < vm.RF ins.m then 1 else 0) },
      .cont)
  else if ins.op = 22 then
    some ({ vm with RF := upd vm.RF ins.r (if vm.RF ins.l ≤ vm.RF ins.m then 1 else 0) },
      .cont)
  else if ins.op = 23 then
    some ({ vm with RF := upd vm.RF ins.r (if vm.RF ins.m < vm.RF ins.l then 1 else 0) },
      .cont)
  else if ins.op = 24 then
    some ({ vm with RF := upd vm.RF ins.r (if vm.RF ins.m ≤ vm.RF ins.l then 1 else 0) },
      .cont)
  else
    some (vm, .fault)

/-- Outcome of the fetch–execute loop of `simulateVM`: a halt (with the
flag telling whether it came from the fault branch), C undefined behaviour,
or fuel exhaustion. -/
inductive SimRes where
  | halted : Bool → VMState → SimRes
  | undef : SimRes
  | fuelOut : SimRes

/-- The fetch–execute loop of `simulateVM`.  The C loop fetches
`ins_array[vm->PC]` with no bounds check: a `PC` outside the instructions
actually read reads indeterminate memory, modelled as `undef`.  The `PC` is
incremented before execution, as in the source. -/
def simulateVM : Nat → List Instruction → VMState → SimRes
  | 0, _, _ => .fuelOut
  | fuel + 1, code, vm =>
    if vm.PC < 0 then .undef
    else
      match code.get? vm.PC.toNat with
      | none => .undef
      | some ins =>
        let vm := { vm with PC := vm.PC + 1 }
        match executeInstruction vm ins with
        | none => .undef
        | some (vm', .cont) => simulateVM fuel code vm'
        | some (vm', .halt) => .halted false vm'
        | some (vm', .fault) => .halted true vm'

/-! ## Concrete programs used by the theorems -/

/-- Build a token from an id and a lexeme. -/
def tok (id : Nat) (s : String) : Token := ⟨id, s.toList⟩

/-- Token list of `var x ; read x .`. -/
def readProgToks : List Token :=
  [ tok varsym "var", tok identsym "x", tok semicolonsym ";",
    tok readsym "read", tok identsym "x", tok periodsym "." ]

/-- The generator state just before `statement` parses `read x .` in
`readProgToks`: `var x ;` has been consumed, `INC 0 0 2` emitted and `x`
added (its `address` and `value` fields still indeterminate), and
`currentReg = 0`. -/
def readStmtState (g : Int) : CGState :=
  { toks := readProgToks, tokIdx := 3, currentLevel := 0,
    symbolTable := [⟨"x".toList, .VAR, 0, g, g⟩],
    vmCode := [⟨INC, 0, 0, 2⟩], currentReg := 0, garbage := g }

/-- The generator state for compiling the expression `- 5` with
`currentReg = 0`. -/
def negExprState (g : Int) : CGState :=
  { toks := [tok minussym "-", tok numbersym "5"], tokIdx := 0,
    currentLevel := 0, symbolTable := [], vmCode := [], currentReg := 0,
    garbage := g }

/-- Token list of `const c = 1 ; call c .`. -/
def constCallToks : List Token :=
  [ tok constsym "const", tok identsym "c", tok eqsym "=", tok numbersym "1",
    tok semicolonsym ";", tok callsym "call", tok identsym "c",
    tok periodsym "." ]

/-- Token list of `const c = 1 ; c := 2 .`. -/
def constAssignToks : List Token :=
  [ tok constsym "const", tok identsym "c", tok eqsym "=", tok numbersym "1",
    tok semicolonsym ";", tok identsym "c", tok becomessym ":=",
    tok numbersym "2", tok periodsym "." ]

/-- Token list of `procedure p ; ; call p .` (empty procedure body). -/
def procCallToks : List Token :=
  [ tok procsym "procedure", tok identsym "p", tok semicolonsym ";",
    tok semicolonsym ";", tok callsym "call", tok identsym "p",
    tok periodsym "." ]

/-- Token list of `if 1 = 2 then .` (empty then-branch). -/
def ifCondToks : List Token :=
  [ tok ifsym "if", tok numbersym "1", tok eqsym "=", tok numbersym "2",
    tok thensym "then", tok periodsym "." ]

/-- Token list of `var x , y ; read y .`. -/
def twoVarReadToks : List Token :=
  [ tok varsym "var", tok identsym "x", tok commasym ",", tok identsym "y",
    tok semicolonsym ";", tok readsym "read", tok identsym "y",
    tok periodsym "." ]

/-! ## Evaluation lemmas

Small stepping lemmas used to run the lexer on sources whose characters
are symbolic (known only to be letters or digits).
-/

/-- Reading from the empty source string at index 0 gives the nul
terminator. -/
theorem readChar_nil_zero : readChar [] 0 = .ok nulChar := rfl

/-- Reading the head of the source. -/
theorem readChar_cons_zero (c : Char) (cs : List Char) :
    readChar (c :: cs) 0 = .ok c := by
  unfold readChar
  rw [dif_pos (by simp)]
  rfl

/-- Reading at a positive index skips the head. -/
theorem readChar_cons_succ (c : Char) (cs : List Char) (i : Nat) :
    readChar (c :: cs) (i + 1) = readChar cs i := by
  unfold readChar
  by_cases h : i < cs.length
  · rw [dif_pos (by simpa using Nat.succ_lt_succ h), dif_pos h]
    rfl
  · rw [dif_neg (by simpa using fun hh => h (Nat.lt_of_succ_lt_succ hh)), dif_neg h]
    by_cases h2 : i = cs.length
    · rw [if_pos (by simpa using h2), if_pos h2]
    · rw [if_neg (by simpa using h2), if_neg h2]

/-- A letter is not the nul terminator, a space, or a newline. -/
theorem alpha_ne_special (c : Char) (hc : isalpha c = true) :
    c ≠ nulChar ∧ c ≠ ' ' ∧ c ≠ '\n' := by
  refine ⟨fun h => ?_, fun h => ?_, fun h => ?_⟩ <;>
    (rw [h] at hc; exact absurd hc (by decide))

/-- A digit is not the nul terminator, a space, or a newline. -/
theorem digit_ne_special (c : Char) (hc : isdigit c = true) :
    c ≠ nulChar ∧ c ≠ ' ' ∧ c ≠ '\n' := by
  refine ⟨fun h => ?_, fun h => ?_, fun h => ?_⟩ <;>
    (rw [h] at hc; exact absurd hc (by decide))

/-- A digit is not a letter (`DFA_Digit`'s `yesAlpha` stays false on an
all-digit run). -/
theorem digit_not_alpha (c : Char) (hc : isdigit c = true) : isalpha c = false := by
  simp only [isdigit, Char.isDigit, decide_eq_true_eq, Bool.and_eq_true] at hc
  obtain ⟨h1, h2⟩ := hc
  simp only [isalpha, Char.isAlpha, Char.isUpper, Char.isLower, Bool.or_eq_false_iff,
    Bool.and_eq_false_iff, decide_eq_false_iff_not]
  exact ⟨Or.inl fun hge => absurd (UInt32.le_trans hge h2) (by decide),
         Or.inl fun hge => absurd (UInt32.le_trans hge h2) (by decide)⟩

set_option maxHeartbeats 1600000 in
set_option maxRecDepth 4000 in
/-- Any 11-character alphanumeric lexeme starting with a letter is lexed
as a single identifier token (an 11-character lexeme cannot match a
reserved word, all of which are shorter). -/
theorem ident11_accepted (c0 c1 c2 c3 c4 c5 c6 c7 c8 c9 c10 : Char)
    (h0 : isalpha c0 = true)
    (h1 : (isalpha c1 || isdigit c1) = true)
    (h2 : (isalpha c2 || isdigit c2) = true)
    (h3 : (isalpha c3 || isdigit c3) = true)
    (h4 : (isalpha c4 || isdigit c4) = true)
    (h5 : (isalpha c5 || isdigit c5) = true)
    (h6 : (isalpha c6 || isdigit c6) = true)
    (h7 : (isalpha c7 || isdigit c7) = true)
    (h8 : (isalpha c8 || isdigit c8) = true)
    (h9 : (isalpha c9 || isdigit c9) = true)
    (h10 : (isalpha c10 || isdigit c10) = true) :
    lexicalAnalyzer 20 (some [c0,c1,c2,c3,c4,c5,c6,c7,c8,c9,c10])
      = .ok ⟨.NONE, -1, [⟨2, [c0,c1,c2,c3,c4,c5,c6,c7,c8,c9,c10]⟩]⟩ := by
  obtain ⟨hn0, hs0, hnl0⟩ := alpha_ne_special c0 h0
  simp +decide [lexicalAnalyzer, lexLoop, skipWs, DFA_Alpha, alphaScan, getSymbolType,
        checkReservedTokens, reservedTokens, initLexerState, MAX_LEXEME_LENGTH, isSpecialSymbol,
        readChar_cons_zero, readChar_cons_succ, readChar_nil_zero,
        h0, h1, h2, h3, h4, h5, h6, h7, h8, h9, h10, hn0, hs0, hnl0]

set_option maxHeartbeats 1600000 in
set_option maxRecDepth 4000 in
/-- Any 12-character alphanumeric lexeme starting with a letter is
rejected with `NAME_TOO_LONG`. -/
theorem ident12_rejected (c0 c1 c2 c3 c4 c5 c6 c7 c8 c9 c10 c11 : Char)
    (h0 : isalpha c0 = true)
    (h1 : (isalpha c1 || isdigit c1) = true)
    (h2 : (isalpha c2 || isdigit c2) = true)
    (h3 : (isalpha c3 || isdigit c3) = true)
    (h4 : (isalpha c4 || isdigit c4) = true)
    (h5 : (isalpha c5 || isdigit c5) = true)
    (h6 : (isalpha c6 || isdigit c6) = true)
    (h7 : (isalpha c7 || isdigit c7) = true)
    (h8 : (isalpha c8 || isdigit c8) = true)
    (h9 : (isalpha c9 || isdigit c9) = true)
    (h10 : (isalpha c10 || isdigit c10) = true)
    (h11 : (isalpha c11 || isdigit c11) = true) :
    lexicalAnalyzer 20 (some [c0,c1,c2,c3,c4,c5,c6,c7,c8,c9,c10,c11])
      = .ok ⟨.NAME_TOO_LONG, 0, []⟩ := by
  obtain ⟨hn0, hs0, hnl0⟩ := alpha_ne_special c0 h0
  simp +decide [lexicalAnalyzer, lexLoop, skipWs, DFA_Alpha, alphaScan, getSymbolType,
        initLexerState, MAX_LEXEME_LENGTH, isSpecialSymbol,
        readChar_cons_zero, readChar_cons_succ, readChar_nil_zero,
        h0, h1, h2, h3, h4, h5, h6, h7, h8, h9, h10, h11, hn0, hs0, hnl0]

set_option maxHeartbeats 1600000 in
set_option maxRecDepth 4000 in
/-- Any 5-digit lexeme is lexed as a single number token. -/
theorem num5_accepted (d0 d1 d2 d3 d4 : Char)
    (h0 : isdigit d0 = true)
    (h1 : isdigit d1 = true)
    (h2 : isdigit d2 = true)
    (h3 : isdigit d3 = true)
    (h4 : isdigit d4 = true) :
    lexicalAnalyzer 20 (some [d0,d1,d2,d3,d4])
      = .ok ⟨.NONE, -1, [⟨3, [d0,d1,d2,d3,d4]⟩]⟩ := by
  obtain ⟨hn0, hs0, hnl0⟩ := digit_ne_special d0 h0
  have ha0 := digit_not_alpha d0 h0
  have ha1 := digit_not_alpha d1 h1
  have ha2 := digit_not_alpha d2 h2
  have ha3 := digit_not_alpha d3 h3
  have ha4 := digit_not_alpha d4 h4
  simp +decide [lexicalAnalyzer, lexLoop, skipWs, DFA_Digit, digitScan, getSymbolType,
        initLexerState, MAX_LEXEME_LENGTH, isSpecialSymbol,
        readChar_cons_zero, readChar_cons_succ, readChar_nil_zero,
        h0, h1, h2, h3, h4, ha0, ha1, ha2, ha3, ha4, hn0, hs0, hnl0]

set_option maxHeartbeats 1600000 in
set_option maxRecDepth 4000 in
/-- Any 6-digit lexeme is rejected with `NUM_TOO_LONG`. -/
theorem num6_rejected (d0 d1 d2 d3 d4 d5 : Char)
    (h0 : isdigit d0 = true)
    (h1 : isdigit d1 = true)
    (h2 : isdigit d2 = true)
    (h3 : isdigit d3 = true)
    (h4 : isdigit d4 = true)
    (h5 : isdigit d5 = true) :
    lexicalAnalyzer 20 (some [d0,d1,d2,d3,d4,d5])
      = .ok ⟨.NUM_TOO_LONG, 0, []⟩ := by
  obtain ⟨hn0, hs0, hnl0⟩ := digit_ne_special d0 h0
  have ha0 := digit_not_alpha d0 h0
  have ha1 := digit_not_alpha d1 h1
  have ha2 := digit_not_alpha d2 h2
  have ha3 := digit_not_alpha d3 h3
  have ha4 := digit_not_alpha d4 h4
  have ha5 := digit_not_alpha d5 h5
  simp +decide [lexicalAnalyzer, lexLoop, skipWs, DFA_Digit, digitScan, getSymbolType,
        initLexerState, MAX_LEXEME_LENGTH, isSpecialSymbol,
        readChar_cons_zero, readChar_cons_succ, readChar_nil_zero,
        h0, h1, h2, h3, h4, h5, ha0, ha1, ha2, ha3, ha4, ha5, hn0, hs0, hnl0]

/-! ## Theorems settling the claims -/

/-- C1: the claimed register discipline fails on the code.  On the token
list `var x ; read x .` code generation succeeds (returns 0), yet the
`read` statement leaves `curReg` at `-1`: one *below* its entry value 0,
because `statement` emits `SIO_READ`/`STO` at the entry register and then
decrements.  Likewise `expression` on `- 5` starting at `curReg = 0` ends
at `curReg = 0`, a net change of 0 instead of the claimed +1, because the
leading minus emits `NEG` and then decrements.  (Both runs succeed, so the
claim's "on which code generation succeeds" hypothesis is met.) -/
theorem C1_success_with_broken_register_discipline :
    ∀ g : Int,
      cgErrCode (codeGenerator g 12 readProgToks) = some 0 ∧
      (cgFinalState (codeGenerator g 12 readProgToks)).map CGState.currentReg
        = some (-1) ∧
      cgErrCode (statement 12 (readStmtState g)) = some 0 ∧
      (cgFinalState (statement 12 (readStmtState g))).map CGState.currentReg
        = some (-1) ∧
      cgErrCode (expression 12 (negExprState g)) = some 0 ∧
      (cgFinalState (expression 12 (negExprState g))).map CGState.currentReg
        = some 0 :=
  fun _ => ⟨rfl, rfl, rfl, rfl, rfl, rfl⟩

/-- C2: the claimed failure model fails on the code.  A `DIV` (opcode 16)
or `MOD` (opcode 18) whose divisor register holds zero makes
`executeInstruction` undefined — the C source divides with no test of the
divisor, so no fault record is emitted and the VM does not halt; the
one-instruction program `16 0 0 0` run from the initial all-zero state
makes the whole simulation undefined rather than a fault-halt.  (Only the
illegal-opcode case of the claim is actually implemented, by the `default:`
branch.) -/
theorem C2_div_mod_by_zero_undefined_not_fault :
    executeInstruction (initVM []) ⟨16, 0, 0, 0⟩ = none ∧
    executeInstruction (initVM []) ⟨18, 0, 0, 0⟩ = none ∧
    simulateVM 10 [⟨16, 0, 0, 0⟩] (initVM []) = SimRes.undef ∧
    executeInstruction (initVM []) ⟨0, 0, 0, 0⟩ = some (initVM [], .fault) :=
  ⟨rfl, rfl, rfl, rfl⟩

/-- C3: the assignment half of the claim holds (assigning to the constant
`c` stops compilation with error 16), but the call half fails: `call c` on
a `CONST` symbol returns error code 7, not the claimed 17 — the source's
comment says 17 and its `return` statement says 7. -/
theorem C3_call_of_const_returns_7_not_17 :
    ∀ g : Int,
      cgErrCode (codeGenerator g 12 constAssignToks) = some 16 ∧
      cgErrCode (codeGenerator g 12 constCallToks) = some 7 :=
  fun _ => ⟨rfl, rfl⟩

/-- C4: the claim fails on the code.  For `procedure p ; ; call p .` the
emitted `CAL` is `(CAL, 0, g, 4)` where `g` is the indeterminate value of
the procedure symbol's never-initialised `address` field: the l field gets
the address, the m field is the constant 4 — not `l = δL`, `m = code
address` as claimed. -/
theorem C4_cal_operands_swapped_and_uninitialized :
    ∀ g : Int,
      cgErrCode (codeGenerator g 12 procCallToks) = some 0 ∧
      (cgFinalState (codeGenerator g 12 procCallToks)).map CGState.vmCode
        = some [⟨JMP, 0, 0, 2⟩, ⟨INC, 0, 0, 4⟩, ⟨CAL, 0, g, 4⟩,
                ⟨SIO_HALT, 0, 0, 3⟩] :=
  fun _ => ⟨rfl, rfl⟩

/-- C5: the claim fails on the code.  Compiling `if 1 = 2 then .` emits
`LIT 0 0 1` (the left operand), then immediately the comparison
`EQL 0 0 1` — *before* the right operand's `LIT 0 0 2` — so the comparison
is not emitted "only after both" and reads register 1, which no preceding
instruction has written. -/
theorem C5_comparison_emitted_between_operands :
    cgErrCode (codeGenerator 0 12 ifCondToks) = some 0 ∧
    (cgFinalState (codeGenerator 0 12 ifCondToks)).map CGState.vmCode
      = some [⟨LIT, 0, 0, 1⟩, ⟨EQL, 0, 0, 1⟩, ⟨LIT, 0, 0, 2⟩,
              ⟨JPC, 1, 0, 4⟩, ⟨SIO_HALT, 0, 0, 3⟩] :=
  ⟨rfl, rfl⟩

/-- C6: the claim fails on the code.  Compiling `var x , y ; read y .`
appends both `VAR` symbols with `address` equal to the indeterminate value
`g` of the never-written field — not frame slots 4 and 5 — emits one
`INC 0 0 2` per variable instead of reserving the 4-slot header, and the
`STO` for `y` carries that indeterminate `g` as its m field. -/
theorem C6_var_addresses_never_assigned :
    ∀ g : Int,
      cgErrCode (codeGenerator g 12 twoVarReadToks) = some 0 ∧
      (cgFinalState (codeGenerator g 12 twoVarReadToks)).map CGState.symbolTable
        = some [⟨"x".toList, .VAR, 0, g, g⟩, ⟨"y".toList, .VAR, 0, g, g⟩] ∧
      (cgFinalState (codeGenerator g 12 twoVarReadToks)).map CGState.vmCode
        = some [⟨INC, 0, 0, 2⟩, ⟨INC, 0, 0, 2⟩, ⟨SIO_READ, 0, 0, 2⟩,
                ⟨STO, 0, 0, g⟩, ⟨SIO_HALT, 0, 0, 3⟩] :=
  fun _ => ⟨rfl, rfl, rfl⟩

/-- C7: the claim fails on the code.  On the source `"/*"` — end-of-source
inside a comment — the lexer never returns at all: for every fuel the run
either exhausts the fuel or reads past the nul terminator (the comment loop
of `DFA_Special` has no end-of-source test), so no lexical error is ever
reported. -/
theorem C7_unterminated_comment_never_reports :
    ∀ fuel : Nat,
      lexicalAnalyzer fuel (some ['/', '*']) = LexStep.oob ∨
      lexicalAnalyzer fuel (some ['/', '*']) = LexStep.fuelOut :=
  fun fuel =>
    match fuel with
    | 0 => Or.inr rfl
    | 1 => Or.inr rfl
    | 2 => Or.inr rfl
    | _ + 3 => Or.inl rfl

/-- C8: the claim fails on the code.  A lone `:` is silently skipped: on
the source `":"` the lexer returns with no error (`NONE`, error line `-1`)
and no token, and on `"x : y"` it returns the identifier tokens `x`, `y`
with the `:` dropped — the invalid-symbol branch of `DFA_Special` is
commented out in the source. -/
theorem C8_lone_colon_silently_skipped :
    lexicalAnalyzer 10 (some [':'])
      = LexStep.ok ⟨.NONE, -1, []⟩ ∧
    lexicalAnalyzer 20 (some "x : y".toList)
      = LexStep.ok ⟨.NONE, -1, [⟨2, "x".toList⟩, ⟨2, "y".toList⟩]⟩ :=
  ⟨rfl, rfl⟩

/-- C9: confirmed, universally over the lexeme's characters.  Every
11-character alphanumeric lexeme starting with a letter is accepted as a
single identifier token, and every 12-character one is rejected with
`NAME_TOO_LONG`; every 5-digit lexeme is accepted as a single number token,
and every 6-digit one is rejected with `NUM_TOO_LONG`. -/
theorem C9_lexeme_length_boundaries :
    (∀ c0 c1 c2 c3 c4 c5 c6 c7 c8 c9 c10 : Char,
      isalpha c0 = true →
      (isalpha c1 || isdigit c1) = true → (isalpha c2 || isdigit c2) = true →
      (isalpha c3 || isdigit c3) = true → (isalpha c4 || isdigit c4) = true →
      (isalpha c5 || isdigit c5) = true → (isalpha c6 || isdigit c6) = true →
      (isalpha c7 || isdigit c7) = true → (isalpha c8 || isdigit c8) = true →
      (isalpha c9 || isdigit c9) = true → (isalpha c10 || isdigit c10) = true →
      lexicalAnalyzer 20 (some [c0,c1,c2,c3,c4,c5,c6,c7,c8,c9,c10])
        = .ok ⟨.NONE, -1, [⟨2, [c0,c1,c2,c3,c4,c5,c6,c7,c8,c9,c10]⟩]⟩) ∧
    (∀ c0 c1 c2 c3 c4 c5 c6 c7 c8 c9 c10 c11 : Char,
      isalpha c0 = true →
      (isalpha c1 || isdigit c1) = true → (isalpha c2 || isdigit c2) = true →
      (isalpha c3 || isdigit c3) = true → (isalpha c4 || isdigit c4) = true →
      (isalpha c5 || isdigit c5) = true → (isalpha c6 || isdigit c6) = true →
      (isalpha c7 || isdigit c7) = true → (isalpha c8 || isdigit c8) = true →
      (isalpha c9 || isdigit c9) = true → (isalpha c10 || isdigit c10) = true →
      (isalpha c11 || isdigit c11) = true →
      lexicalAnalyzer 20 (some [c0,c1,c2,c3,c4,c5,c6,c7,c8,c9,c10,c11])
        = .ok ⟨.NAME_TOO_LONG, 0, []⟩) ∧
    (∀ d0 d1 d2 d3 d4 : Char,
      isdigit d0 = true → isdigit d1 = true → isdigit d2 = true →
      isdigit d3 = true → isdigit d4 = true →
      lexicalAnalyzer 20 (some [d0,d1,d2,d3,d4])
        = .ok ⟨.NONE, -1, [⟨3, [d0,d1,d2,d3,d4]⟩]⟩) ∧
    (∀ d0 d1 d2 d3 d4 d5 : Char,
      isdigit d0 = true → isdigit d1 = true → isdigit d2 = true →
      isdigit d3 = true → isdigit d4 = true → isdigit d5 = true →
      lexicalAnalyzer 20 (some [d0,d1,d2,d3,d4,d5])
        = .ok ⟨.NUM_TOO_LONG, 0, []⟩) :=
  ⟨ident11_accepted, ident12_rejected, num5_accepted, num6_rejected⟩

/-- Witness for C9 at concrete boundary lexemes. -/
theorem C9_lexeme_length_boundaries_witness :
    lexicalAnalyzer 20 (some ['a','b','c','d','e','f','g','h','i','j','k'])
      = .ok ⟨.NONE, -1, [⟨2, ['a','b','c','d','e','f','g','h','i','j','k']⟩]⟩ ∧
    lexicalAnalyzer 20 (some ['a','b','c','d','e','f','g','h','i','j','k','l'])
      = .ok ⟨.NAME_TOO_LONG, 0, []⟩ ∧
    lexicalAnalyzer 20 (some ['1','2','3','4','5'])
      = .ok ⟨.NONE, -1, [⟨3, ['1','2','3','4','5']⟩]⟩ ∧
    lexicalAnalyzer 20 (some ['1','2','3','4','5','6'])
      = .ok ⟨.NUM_TOO_LONG, 0, []⟩ :=
  ⟨C9_lexeme_length_boundaries.1 'a' 'b' 'c' 'd' 'e' 'f' 'g' 'h' 'i' 'j' 'k'
      (by decide) (by decide) (by decide) (by decide) (by decide) (by decide)
      (by decide) (by decide) (by decide) (by decide) (by decide),
   C9_lexeme_length_boundaries.2.1 'a' 'b' 'c' 'd' 'e' 'f' 'g' 'h' 'i' 'j' 'k' 'l'
      (by decide) (by decide) (by decide) (by decide) (by decide) (by decide)
      (by decide) (by decide) (by decide) (by decide) (by decide) (by decide),
   C9_lexeme_length_boundaries.2.2.1 '1' '2' '3' '4' '5'
      (by decide) (by decide) (by decide) (by decide) (by decide),
   C9_lexeme_length_boundaries.2.2.2 '1' '2' '3' '4' '5' '6'
      (by decide) (by decide) (by decide) (by decide) (by decide) (by decide)⟩

/-- C10: confirmed.  Called on the `NULL` source pointer, `lexicalAnalyzer`
returns immediately — for any fuel — with error `NO_SOURCE_CODE` and error
line `-1`, having read no source character and produced no token. -/
theorem C10_null_source_short_circuits :
    ∀ fuel : Nat,
      lexicalAnalyzer fuel none = LexStep.ok ⟨.NO_SOURCE_CODE, -1, []⟩ :=
  fun _ => rfl

end PL0
